import Mathlib

/-!
Shallow embedding of the `o-murphy/vectronix-lrf` protocol codec.

Byte strings are modelled as `List Nat` (one `Nat` per byte). Python
exceptions are modelled with `Except PyError`. Python floats produced by
`int(...) / 100` are modelled as exact rationals (the quotients involved,
centimetre values below 10^7 divided by 100, are representable exactly in
binary64, so `ℚ` is faithful here).

Sources: `src/vectronix.py` (commands, reader, `parse_range`, `check_crc`)
and `src/protocol.py` (`DistanceMeasurement.parse_response` / `check_crc`).
-/

namespace VectronixLRF

/-- Source `src/vectronix.py` line 3. -/
def RANGING_RESPONSE_LEN : Nat := 11

/-- Source `src/vectronix.py` line 4: ACK byte 0x3E. -/
def ACK : Nat := 0x3E

/-- Source `src/vectronix.py` line 5: NACK byte 0x21. -/
def NACK : Nat := 0x21

/-- Source `src/vectronix.py` line 6: carriage-return terminator 0x0D. -/
def END : Nat := 0x0D

/-- Source `src/vectronix.py` line 7: comma byte 0x2C. -/
def COMMA : Nat := 0x2C

/-- The Python exceptions the codec can raise, one constructor per
distinct raise site / built-in failure. -/
inductive PyError
  /-- `ValueError("Invalid command")`, `read_response` on NACK. -/
  | commandRejected
  /-- `ValueError("Invalid response format")`, length / trailing-CR check. -/
  | malformedFrame
  /-- `ValueError("Invalid CRC")`, `VectronixRangeFinder.check_crc`. -/
  | checksumMismatch
  /-- `ValueError` raised by `int(...)` on a non-numeric string. -/
  | malformedPayload
  /-- `UnicodeDecodeError` raised by `bytes.decode('ascii'/'utf-8')`. -/
  | unicodeDecodeError
  /-- Subscripting the rebound result dict with a slice in
  `parse_range`'s non-valid branch (`TypeError`, a `KeyError` on
  Python ≥ 3.12 where slices are hashable); an uncaught crash either way. -/
  | dictSliceError
deriving DecidableEq, Repr

-- src/vectronix.py lines 10-14: the 3-byte command mnemonics.
namespace Command

def GET_RANGE : List Nat := [0x4D, 0x64, 0x31]

def SW_HW_INFO : List Nat := [0x49, 0x76, 0x31]

def SELF_TEST : List Nat := [0x54, 0x62, 0x31]

def LPCL_MODE : List Nat := [0x54, 0x6C, 0x31]

end Command

/-- ASCII decimal digit `0`-`9`. -/
def isAsciiDigit (b : Nat) : Bool := 0x30 ≤ b && b ≤ 0x39

/-- The ASCII characters `int(str)` strips: `\t \n \v \f \r` (0x09-0x0D),
the separator controls 0x1C-0x1F, and space 0x20 (CPython
`Py_UNICODE_ISSPACE` restricted to ASCII). -/
def isPySpace (b : Nat) : Bool :=
  (0x09 ≤ b && b ≤ 0x0D) || (0x1C ≤ b && b ≤ 0x20)

/-- Digit run of Python `int()`, after the first digit: decimal digits with
single underscores allowed only between two digits. Accumulates the value. -/
def digitsRest (acc : Nat) : List Nat → Option Nat
  | [] => some acc
  | [b] => if isAsciiDigit b then some (10 * acc + (b - 0x30)) else none
  | b :: c :: r =>
    if isAsciiDigit b then digitsRest (10 * acc + (b - 0x30)) (c :: r)
    else if b = 0x5F && isAsciiDigit c then
      digitsRest (10 * acc + (c - 0x30)) r
    else none

/-- A nonempty digit run: first character must be a digit (an underscore
may not lead), then `digitsRest`. -/
def digitRun : List Nat → Option Nat
  | [] => none
  | b :: r => if isAsciiDigit b then digitsRest (b - 0x30) r else none

/-- Python `int(s)` on an ASCII string `s` (given as character codes):
optional surrounding whitespace, optional single sign, then a digit run
with optional underscore grouping. Returns `none` where `int()` raises
`ValueError`. -/
def pythonInt (s : List Nat) : Option Int :=
  let t := ((s.dropWhile isPySpace).reverse.dropWhile isPySpace).reverse
  match t with
  | [] => none
  | b :: r =>
    if b = 0x2B then (digitRun r).map (fun n => (n : Int))
    else if b = 0x2D then (digitRun r).map (fun n => -(n : Int))
    else (digitRun (b :: r)).map (fun n => (n : Int))

/-- `int(bs.decode('ascii'))`: strict ASCII decoding (any byte ≥ 0x80
raises `UnicodeDecodeError`), then Python `int()` (raising `ValueError`
on a malformed numeral). -/
def pyIntBytes (bs : List Nat) : Except PyError Int :=
  if bs.all (fun b => b < 0x80) then
    match pythonInt bs with
    | some v => .ok v
    | none => .error .malformedPayload
  else .error .unicodeDecodeError

/-- Uppercase hexadecimal digit for a value < 16. -/
def hexDigit (d : Nat) : Nat := if d < 10 then 0x30 + d else 0x37 + d

/-- Python 02X formatting of `n < 256`: two uppercase hex character codes. -/
def hex2 (n : Nat) : List Nat := [hexDigit (n / 16 % 16), hexDigit (n % 16)]

/-- The Python slice `response[-3:-1]`: elements from `max 0 (len-3)`
(inclusive) to `max 0 (len-1)` (exclusive); with `Nat` truncated
subtraction this is `take (len-1)` then `drop (len-3)`. -/
def crcSlice (resp : List Nat) : List Nat :=
  (resp.take (resp.length - 1)).drop (resp.length - 3)

/-- UTF-8 decoding of a byte string of length ≤ 2 (the only shapes
`crcSlice` can produce), returning the decoded code points: ASCII bytes
decode to themselves, a two-byte sequence `C2..DF 80..BF` decodes to one
code point, everything else raises `UnicodeDecodeError` (`none`). Lists of
length ≥ 3 never arise from `crcSlice` and are mapped to `none`. -/
def utf8DecodeSmall : List Nat → Option (List Nat)
  | [] => some []
  | [a] => if a < 0x80 then some [a] else none
  | [a, b] =>
    if a < 0x80 && b < 0x80 then some [a, b]
    else if 0xC2 ≤ a && a ≤ 0xDF && 0x80 ≤ b && b ≤ 0xBF then
      some [0x40 * (a - 0xC0) + (b - 0x80)]
    else none
  | _ => none

namespace VectronixRangeFinder

/-- Source `src/vectronix.py` lines 38-41, `send_command`.

`opcode = COMMA + str(lpcl_mode).encode('ascii') if lpcl_mode else b""`:
the conditional tests Python truthiness of the `LPCLMode` member, which is
its integer value, so both `None` and `DEACTIVATE` (= 0) yield `b""`.
`str` of an `IntEnum` member (Python ≥ 3.11) is its decimal value, a
single digit `0x30 + m` for the levels 0-6 (`Fin 7`). The frame written
is `ACK + command + opcode + END`. -/
def send_command (command : List Nat) (lpcl_mode : Option (Fin 7)) :
    List Nat :=
  let opcode : List Nat :=
    match lpcl_mode with
    | some m => if m.val ≠ 0 then [COMMA, 0x30 + m.val] else []
    | none => []
  ACK :: (command ++ opcode ++ [END])

/-- Outcome of `read_response`, paired with the bytes left unread in the
stream (so consumption is observable). -/
inductive ReadResult
  | ok (frame rest : List Nat)
  | err (e : PyError) (rest : List Nat)
deriving DecidableEq, Repr

/-- Source `src/vectronix.py` lines 43-55, `read_response`, with the transport
modelled as a byte list: `read(n)` yields the next `min n len` bytes
(fewer on timeout / end of stream, as pyserial does). END bytes are
skipped (`continue`); NACK raises `ValueError("Invalid command")`; after
ACK, 10 further bytes are read and the 11-byte/trailing-CR shape is
enforced. The `return response` sits at loop level, so any other first
byte — including the empty read at end of stream — is returned as is. -/
def read_response : List Nat → ReadResult
  | [] => .ok [] []
  | b :: rest =>
    if b = END then read_response rest
    else if b = NACK then .err .commandRejected rest
    else if b = ACK then
      let response := b :: rest.take (RANGING_RESPONSE_LEN - 1)
      if response.length = RANGING_RESPONSE_LEN ∧
          response.getLast? = some END then
        .ok response (rest.drop (RANGING_RESPONSE_LEN - 1))
      else .err .malformedFrame (rest.drop (RANGING_RESPONSE_LEN - 1))
    else .ok [b] rest

/-- Source `src/vectronix.py` lines 84-94, `check_crc`: decode `response[-3:-1]`
as UTF-8 (which can itself raise), render `sum(response[:8]) & 0xFF` as
two uppercase hex characters, and raise `ValueError("Invalid CRC")` unless
they are equal. -/
def check_crc (response : List Nat) : Except PyError Unit :=
  match utf8DecodeSmall (crcSlice response) with
  | none => .error .unicodeDecodeError
  | some crc_received =>
    if crc_received = hex2 ((response.take 8).sum % 256) then .ok ()
    else .error .checksumMismatch

/-- Source `src/vectronix.py` lines 17-21, `RangingStatus`. -/
inductive RangingStatus
  | valid
  | error
  | unknown
deriving DecidableEq, Repr

/-- The dict returned by `parse_range` in its only non-raising branch. -/
structure ParseRangeResult where
  range : Option ℚ
  status : RangingStatus
  error : Option (List Nat)
deriving DecidableEq, Repr

/-- Source `src/vectronix.py` lines 57-82, `parse_range`: `check_crc` runs first
(raising on bad checksum or undecodable checksum bytes). If the status
byte is `'v'` the seven bytes `response[1:8]` go through
`int(·.decode('ascii')) / 100`. Otherwise the function crashes: the name
`response` was rebound to the result dict on line 63, so `response[4:8]`
on line 79 subscripts a dict with a slice. -/
def parse_range (response : List Nat) : Except PyError ParseRangeResult :=
  match check_crc response with
  | .error e => .error e
  | .ok _ =>
    if response.take 1 = [0x76] then
      match pyIntBytes ((response.drop 1).take 7) with
      | .error e => .error e
      | .ok v => .ok ⟨some ((v : ℚ) / 100), .valid, none⟩
    else .error .dictSliceError

end VectronixRangeFinder

namespace DistanceMeasurement

/-- Source `src/protocol.py` lines 123-131, `DistanceMeasurement.check_crc`:
same computation as the vectronix variant but it returns the boolean
comparison instead of raising; the UTF-8 decode can still raise. -/
def check_crc (response : List Nat) : Except PyError Bool :=
  match utf8DecodeSmall (crcSlice response) with
  | none => .error .unicodeDecodeError
  | some crc_received =>
    .ok (hex2 ((response.take 8).sum % 256) = crc_received)

/-- The `range_status` strings `"Valid"` / `"Error"` / `"Unknown"`. -/
inductive RangeStatusStr
  | valid
  | error
  | unknown
deriving DecidableEq, Repr

/-- Value of the single `"Measured Range"` entry, which the source fills
with `measured_range_value or error_code`: a float, an error byte string,
or `None` when both operands are falsy. -/
inductive MeasuredField
  | num (q : ℚ)
  | code (bs : List Nat)
  | none
deriving DecidableEq, Repr

/-- Python `measured_range_value or error_code`: the float is kept when
truthy (non-`None` and ≠ 0.0), otherwise the error code when present,
otherwise `None`. -/
def pyOr (mr : Option ℚ) (ec : Option (List Nat)) : MeasuredField :=
  match mr with
  | some q =>
    if q ≠ 0 then .num q
    else match ec with
      | some e => .code e
      | Option.none => .none
  | Option.none =>
    match ec with
    | some e => .code e
    | Option.none => .none

/-- The dict returned by `parse_response`. -/
structure ParseResponseResult where
  status : RangeStatusStr
  measuredRange : MeasuredField
  checksum : Bool
deriving DecidableEq, Repr

/-- Source `src/protocol.py` lines 80-121, `parse_response`: the 11-byte /
trailing-CR shape is checked first (`ValueError("Invalid response
format")`); status `'v'` parses `response[1:8]` through
`int(·.decode('ascii')) / 100`, status `'R'` and anything else take
`response[4:8]` as the error code; the result dict holds the status
string, `measured_range_value or error_code`, and the boolean from
`check_crc` (whose UTF-8 decode can raise). -/
def parse_response (response : List Nat) :
    Except PyError ParseResponseResult :=
  if response.length = 11 ∧ response.getLast? = some 0x0D then
    let branch : Except PyError
        (RangeStatusStr × Option ℚ × Option (List Nat)) :=
      if response.take 1 = [0x76] then
        match pyIntBytes ((response.drop 1).take 7) with
        | .error e => .error e
        | .ok v => .ok (.valid, some ((v : ℚ) / 100), Option.none)
      else if response.take 1 = [0x52] then
        .ok (.error, Option.none, some ((response.drop 4).take 4))
      else
        .ok (.unknown, Option.none, some ((response.drop 4).take 4))
    match branch with
    | .error e => .error e
    | .ok (st, mr, ec) =>
      match check_crc response with
      | .error e => .error e
      | .ok b => .ok ⟨st, pyOr mr ec, b⟩
  else .error .malformedFrame

end DistanceMeasurement

/-- Decidable equality for `Except` results, so concrete codec outcomes
can be checked by `decide`. -/
instance exceptDecEq {ε α : Type} [DecidableEq ε] [DecidableEq α] :
    DecidableEq (Except ε α) := fun x y =>
  match x, y with
  | .ok a, .ok b =>
    if h : a = b then .isTrue (congrArg Except.ok h)
    else .isFalse (fun hh => h (Except.ok.inj hh))
  | .error a, .error b =>
    if h : a = b then .isTrue (congrArg Except.error h)
    else .isFalse (fun hh => h (Except.error.inj hh))
  | .ok _, .error _ => .isFalse (fun hh => Except.noConfusion hh)
  | .error _, .ok _ => .isFalse (fun hh => Except.noConfusion hh)

/-- Reference value of an all-digit field, as the spec words it: the
digits read as an unsigned decimal integer, most significant first. -/
def digitValue (l : List Nat) : Nat :=
  l.foldl (fun a b => 10 * a + (b - 0x30)) 0

/-- Source `src/protocol.py` line 78: the prebuilt range request, the
ASCII encoding of the 5-character string with codes 0x3E 'M' 'd' '1' CR. -/
def DistanceMeasurement.range_request : List Nat :=
  [0x3E, 0x4D, 0x64, 0x31, 0x0D]

lemma pyOr_num (q : ℚ) (ec : Option (List Nat)) (h : q ≠ 0) :
    DistanceMeasurement.pyOr (some q) ec = .num q := by
  simp [DistanceMeasurement.pyOr, h]

lemma pyOr_zero (q : ℚ) (h : q = 0) :
    DistanceMeasurement.pyOr (some q) Option.none = .none := by
  simp [DistanceMeasurement.pyOr, h]

lemma isPySpace_of_digit {b : Nat} (h : isAsciiDigit b = true) :
    isPySpace b = false := by
  simp only [isAsciiDigit, Bool.and_eq_true, decide_eq_true_eq] at h
  simp only [isPySpace, Bool.or_eq_false_iff, Bool.and_eq_false_iff,
    decide_eq_false_iff_not, not_le]
  omega

lemma dropWhile_digits {l : List Nat}
    (h : ∀ b ∈ l, isAsciiDigit b = true) :
    l.dropWhile isPySpace = l := by
  cases l with
  | nil => rfl
  | cons b r =>
    simp [List.dropWhile_cons, isPySpace_of_digit (h b (by simp))]

lemma strip_digits {l : List Nat}
    (h : ∀ b ∈ l, isAsciiDigit b = true) :
    ((l.dropWhile isPySpace).reverse.dropWhile isPySpace).reverse = l := by
  rw [dropWhile_digits h,
    dropWhile_digits (fun b hb => h b (List.mem_reverse.mp hb)),
    List.reverse_reverse]

lemma digitsRest_digits (l : List Nat) : ∀ acc : Nat,
    (∀ b ∈ l, isAsciiDigit b = true) →
    digitsRest acc l =
      some (l.foldl (fun a b => 10 * a + (b - 0x30)) acc) := by
  induction l with
  | nil => intro acc _; rfl
  | cons b r ih =>
    intro acc h
    have hb := h b (by simp)
    cases r with
    | nil => simp [digitsRest, hb]
    | cons c r2 =>
      rw [digitsRest, if_pos hb, List.foldl_cons]
      exact ih _ (fun x hx => h x (by simp [hx]))

lemma pythonInt_digits {l : List Nat} (hne : l ≠ [])
    (h : ∀ b ∈ l, isAsciiDigit b = true) :
    pythonInt l = some ((digitValue l : Nat) : Int) := by
  cases l with
  | nil => exact absurd rfl hne
  | cons b r =>
    have hb := h b (by simp)
    have hb2 : 0x30 ≤ b ∧ b ≤ 0x39 := by
      simpa [isAsciiDigit] using hb
    have h43 : ¬ b = 0x2B := by omega
    have h45 : ¬ b = 0x2D := by omega
    unfold pythonInt
    rw [strip_digits h]
    have hrest := digitsRest_digits r (b - 0x30) (fun x hx => h x (by simp [hx]))
    simp [h43, h45, digitRun, hb, hrest, digitValue]

/-- C8: Encoding the GetRange command with no parameter produces exactly
the 5-byte sequence 0x3E 'M' 'd' '1' 0x0D — and it coincides with the
prebuilt `range_request` literal of `protocol.py`. -/
theorem c8_get_range_encoding :
    VectronixRangeFinder.send_command Command.GET_RANGE none =
      [0x3E, 0x4D, 0x64, 0x31, 0x0D] ∧
    VectronixRangeFinder.send_command Command.GET_RANGE none =
      DistanceMeasurement.range_request := by decide

/-- C2: evaluation at the failing input. Supplying the `DEACTIVATE`
parameter (ordinal 0) does NOT yield `0x3E mnemonic 0x2C 0x30 0x0D`: the
truthiness test `if lpcl_mode` treats level 0 like an absent parameter,
so the comma and digit are omitted; a nonzero level (here 3) does get
the claimed comma-and-digit rendering. -/
theorem c2_deactivate_level_is_dropped :
    VectronixRangeFinder.send_command Command.LPCL_MODE (some (0 : Fin 7)) =
      [ACK, 0x54, 0x6C, 0x31, END] ∧
    COMMA ∉
      VectronixRangeFinder.send_command Command.LPCL_MODE
        (some (0 : Fin 7)) ∧
    VectronixRangeFinder.send_command Command.LPCL_MODE (some (3 : Fin 7)) =
      [ACK, 0x54, 0x6C, 0x31, COMMA, 0x33, END] := by decide

/-- C3 counterexample: fed the stream starting with the noise byte 0x78
(not END, NACK, or ACK), the Frame Reader returns the one-byte response
`[0x78]` — frame content that did not begin with ACK — instead of
ignoring the byte. -/
theorem c3_noise_byte_returned_counterexample :
    VectronixRangeFinder.read_response [0x78, 0x01] = .ok [0x78] [0x01] ∧
    (0x78 : Nat) ≠ ACK := by decide

/-- C3 (amended): every frame the reader returns is either a validated
11-byte ACK-headed END-terminated frame, or the empty read at end of
stream, or a single byte that is not END, NACK, or ACK, returned as is
(not ignored as synchronization noise). -/
theorem c3_reader_output_shape (s frame rest : List Nat)
    (h : VectronixRangeFinder.read_response s = .ok frame rest) :
    (frame.head? = some ACK ∧ frame.length = 11 ∧
      frame.getLast? = some END) ∨
    frame = [] ∨
    ∃ b, frame = [b] ∧ b ≠ END ∧ b ≠ NACK ∧ b ≠ ACK := by
  induction s generalizing frame rest with
  | nil =>
    rw [VectronixRangeFinder.read_response] at h
    rw [VectronixRangeFinder.ReadResult.ok.injEq] at h
    exact Or.inr (Or.inl h.1.symm)
  | cons b r ih =>
    rw [VectronixRangeFinder.read_response] at h
    by_cases hE : b = END
    · rw [if_pos hE] at h
      exact ih _ _ h
    · rw [if_neg hE] at h
      by_cases hN : b = NACK
      · rw [if_pos hN] at h
        simp at h
      · rw [if_neg hN] at h
        by_cases hA : b = ACK
        · rw [if_pos hA] at h
          by_cases hc :
              (b :: r.take (RANGING_RESPONSE_LEN - 1)).length =
                  RANGING_RESPONSE_LEN ∧
                (b :: r.take (RANGING_RESPONSE_LEN - 1)).getLast? =
                  some END
          · rw [if_pos hc] at h
            rw [VectronixRangeFinder.ReadResult.ok.injEq] at h
            left
            refine ⟨?_, ?_, ?_⟩
            · rw [← h.1]; simp [hA]
            · rw [← h.1]; simpa [RANGING_RESPONSE_LEN] using hc.1
            · rw [← h.1]; exact hc.2
          · rw [if_neg hc] at h
            simp at h
        · rw [if_neg hA] at h
          rw [VectronixRangeFinder.ReadResult.ok.injEq] at h
          exact Or.inr (Or.inr ⟨b, h.1.symm, hE, hN, hA⟩)

/-- C3 witness: the amended shape statement instantiated on the stream
consisting of one stray END byte followed by a well-formed 12-byte
response (ACK plus ten bytes ending in END). -/
theorem c3_reader_output_shape_witness :
    ([ACK, 1, 2, 3, 4, 5, 6, 7, 8, 9, END].head? = some ACK ∧
      [ACK, 1, 2, 3, 4, 5, 6, 7, 8, 9, END].length = 11 ∧
      [ACK, 1, 2, 3, 4, 5, 6, 7, 8, 9, END].getLast? = some END) ∨
    [ACK, 1, 2, 3, 4, 5, 6, 7, 8, 9, END] = ([] : List Nat) ∨
    ∃ b, [ACK, 1, 2, 3, 4, 5, 6, 7, 8, 9, END] = [b] ∧
      b ≠ END ∧ b ≠ NACK ∧ b ≠ ACK :=
  c3_reader_output_shape [END, ACK, 1, 2, 3, 4, 5, 6, 7, 8, 9, END]
    [ACK, 1, 2, 3, 4, 5, 6, 7, 8, 9, END] [] (by decide)

/-- C9: for every stream made of END bytes followed by NACK, the reader
fails with CommandRejected and the unconsumed remainder is exactly the
part of the stream after the NACK byte. -/
theorem c9_nack_rejects_consuming_nothing (p s : List Nat)
    (hp : ∀ b ∈ p, b = END) :
    VectronixRangeFinder.read_response (p ++ NACK :: s) =
      .err .commandRejected s := by
  induction p with
  | nil =>
    rw [List.nil_append, VectronixRangeFinder.read_response]
    norm_num [END, NACK]
  | cons b r ih =>
    have hb : b = END := hp b (List.mem_cons_self b r)
    subst hb
    rw [List.cons_append, VectronixRangeFinder.read_response, if_pos rfl]
    exact ih (fun x hx => hp x (List.mem_cons_of_mem _ hx))

/-- C9 witness: the rejection statement on the concrete stream
END END NACK 0x41 0x42. -/
theorem c9_nack_rejects_consuming_nothing_witness :
    VectronixRangeFinder.read_response [END, END, NACK, 0x41, 0x42] =
      .err .commandRejected [0x41, 0x42] :=
  c9_nack_rejects_consuming_nothing [END, END] [0x41, 0x42] (by decide)

/-- C10: on an 11-byte END-terminated frame whose checksum slice (the
bytes at offsets 8..9, i.e. the Python slice `[-3:-1]`) is not valid
UTF-8 text, both checksum verifiers raise the text-decoding error, not a
checksum mismatch. -/
theorem c10_crc_decode_error (resp : List Nat)
    (_hlen : resp.length = 11) (_hlast : resp.getLast? = some 0x0D)
    (hdec : utf8DecodeSmall (crcSlice resp) = none) :
    VectronixRangeFinder.check_crc resp = .error .unicodeDecodeError ∧
    DistanceMeasurement.check_crc resp = .error .unicodeDecodeError ∧
    PyError.unicodeDecodeError ≠ PyError.checksumMismatch := by
  refine ⟨?_, ?_, by decide⟩
  · unfold VectronixRangeFinder.check_crc
    rw [hdec]
  · unfold DistanceMeasurement.check_crc
    rw [hdec]

/-- C10 witness: the valid-status frame whose checksum bytes are
0x80 0x44; 0x80 is a bare UTF-8 continuation byte, so decoding fails. -/
theorem c10_crc_decode_error_witness :
    VectronixRangeFinder.check_crc
        [0x76, 0x30, 0x31, 0x30, 0x38, 0x37, 0x35, 0x30, 0x80, 0x44,
          0x0D] = .error .unicodeDecodeError ∧
    DistanceMeasurement.check_crc
        [0x76, 0x30, 0x31, 0x30, 0x38, 0x37, 0x35, 0x30, 0x80, 0x44,
          0x0D] = .error .unicodeDecodeError ∧
    PyError.unicodeDecodeError ≠ PyError.checksumMismatch :=
  c10_crc_decode_error
    [0x76, 0x30, 0x31, 0x30, 0x38, 0x37, 0x35, 0x30, 0x80, 0x44, 0x0D]
    (by decide) (by decide) (by decide)

/-- C1: decoding the frame with bytes 'v' '0' '1' '0' '8' '7' '5' '0'
'D' 'B' CR yields status Valid, range 108750 / 100 = 1087.5 meters, and
a passing checksum (no exception in `parse_range`, checksum field `true`
in `parse_response`). -/
theorem c1_strongest_return_decodes_valid :
    VectronixRangeFinder.parse_range
        [0x76, 0x30, 0x31, 0x30, 0x38, 0x37, 0x35, 0x30, 0x44, 0x42,
          0x0D] =
      .ok ⟨some ((108750 : ℚ) / 100), .valid, none⟩ ∧
    DistanceMeasurement.parse_response
        [0x76, 0x30, 0x31, 0x30, 0x38, 0x37, 0x35, 0x30, 0x44, 0x42,
          0x0D] =
      .ok ⟨.valid, .num ((108750 : ℚ) / 100), true⟩ ∧
    (108750 : ℚ) / 100 = 1087.5 := by
  refine ⟨rfl, ?_, by norm_num⟩
  have h : DistanceMeasurement.parse_response
      [0x76, 0x30, 0x31, 0x30, 0x38, 0x37, 0x35, 0x30, 0x44, 0x42,
        0x0D] =
      .ok ⟨.valid,
        DistanceMeasurement.pyOr (some ((108750 : ℚ) / 100)) Option.none,
        true⟩ := rfl
  rw [h, pyOr_num _ _ (by norm_num)]

/-- C5: evaluation at the failing input. Decoding the Valid frame whose
seven digits are all zero (with correct checksum 0xC6): `parse_response`
leaves the Measured Range entry `None` — the Python expression
`measured_range_value or error_code` discards the falsy 0.0 — so neither
the range nor the error payload is populated, while `parse_range` (which
has separate fields and no `or` collapse) does populate range 0.0. -/
theorem c5_zero_range_not_populated :
    DistanceMeasurement.parse_response
        [0x76, 0x30, 0x30, 0x30, 0x30, 0x30, 0x30, 0x30, 0x43, 0x36,
          0x0D] =
      .ok ⟨.valid, .none, true⟩ ∧
    VectronixRangeFinder.parse_range
        [0x76, 0x30, 0x30, 0x30, 0x30, 0x30, 0x30, 0x30, 0x43, 0x36,
          0x0D] =
      .ok ⟨some ((0 : ℚ) / 100), .valid, none⟩ ∧
    (0 : ℚ) / 100 = 0 := by
  refine ⟨?_, rfl, by norm_num⟩
  have h : DistanceMeasurement.parse_response
      [0x76, 0x30, 0x30, 0x30, 0x30, 0x30, 0x30, 0x30, 0x43, 0x36,
        0x0D] =
      .ok ⟨.valid,
        DistanceMeasurement.pyOr (some ((0 : ℚ) / 100)) Option.none,
        true⟩ := rfl
  rw [h, pyOr_zero _ (by norm_num)]

/-- C6: decoding the error frame with bytes 'R' '0' '0' '0' 'E' '3' '0'
'1' 'B' 'B' CR. The `protocol.py` decoder yields status Error, no
numeric range, checksum evaluated (`true`), and the verbatim bytes at
offsets 4..8 ('E' '3' '0' '1') as the opaque payload — but the
`vectronix.py` decoder crashes on every non-valid status (the rebound
dict is subscripted with a slice) instead of producing that result. -/
theorem c6_error_frame_decoding :
    DistanceMeasurement.parse_response
        [0x52, 0x30, 0x30, 0x30, 0x45, 0x33, 0x30, 0x31, 0x42, 0x42,
          0x0D] =
      .ok ⟨.error, .code [0x45, 0x33, 0x30, 0x31], true⟩ ∧
    [0x45, 0x33, 0x30, 0x31] =
      (([0x52, 0x30, 0x30, 0x30, 0x45, 0x33, 0x30, 0x31, 0x42, 0x42,
          0x0D].drop 4).take 4) ∧
    VectronixRangeFinder.parse_range
        [0x52, 0x30, 0x30, 0x30, 0x45, 0x33, 0x30, 0x31, 0x42, 0x42,
          0x0D] =
      .error .dictSliceError := by decide

/-- C7 counterexample: the correctly shaped Valid frame whose digit
field is '+' '1' '2' '3' '4' '5' '6' (checksum 0xD6) is not all ASCII
decimal digits, yet decoding does not fail with MalformedPayload: the
Python `int()` call accepts the leading sign and the range 1234.56 is
returned. -/
theorem c7_signed_field_accepted_counterexample :
    VectronixRangeFinder.parse_range
        [0x76, 0x2B, 0x31, 0x32, 0x33, 0x34, 0x35, 0x36, 0x44, 0x36,
          0x0D] =
      .ok ⟨some ((123456 : ℚ) / 100), .valid, none⟩ ∧
    ¬ (([0x76, 0x2B, 0x31, 0x32, 0x33, 0x34, 0x35, 0x36, 0x44, 0x36,
          0x0D].drop 1).take 7).all isAsciiDigit = true :=
  ⟨rfl, by decide⟩

/-- C4 counterexample: the Valid frame with checksum bytes tampered to
'D' 'A' (true checksum 'D' 'B'). `parse_range` fails with
ChecksumMismatch but aborts before producing any decoded field (the
error carries no payload), while `parse_response` does expose the
decoded fields but completes normally with checksum `false` instead of
failing — so neither decoder both fails and exposes the fields, as the
claim requires. -/
theorem c4_tampered_checksum_counterexample :
    VectronixRangeFinder.parse_range
        [0x76, 0x30, 0x31, 0x30, 0x38, 0x37, 0x35, 0x30, 0x44, 0x41,
          0x0D] =
      .error .checksumMismatch ∧
    DistanceMeasurement.parse_response
        [0x76, 0x30, 0x31, 0x30, 0x38, 0x37, 0x35, 0x30, 0x44, 0x41,
          0x0D] =
      .ok ⟨.valid, .num ((108750 : ℚ) / 100), false⟩ := by
  refine ⟨rfl, ?_⟩
  have h : DistanceMeasurement.parse_response
      [0x76, 0x30, 0x31, 0x30, 0x38, 0x37, 0x35, 0x30, 0x44, 0x41,
        0x0D] =
      .ok ⟨.valid,
        DistanceMeasurement.pyOr (some ((108750 : ℚ) / 100)) Option.none,
        false⟩ := rfl
  rw [h, pyOr_num _ _ (by norm_num)]

/-- C4 (amended): on every correctly shaped frame whose decodable
checksum bytes differ from the computed value, `vectronix.py`'s
`parse_range` fails with ChecksumMismatch before producing any decoded
field, while `protocol.py`'s `parse_response` (provided the payload
itself decodes when the status is Valid) completes and exposes the
decoded status/payload with the checksum field `false`. -/
theorem c4_checksum_mismatch_paths (resp r : List Nat)
    (hlen : resp.length = 11) (hlast : resp.getLast? = some 0x0D)
    (hdec : utf8DecodeSmall (crcSlice resp) = some r)
    (hne : r ≠ hex2 ((resp.take 8).sum % 256))
    (hv : resp.take 1 = [0x76] →
      ∃ v, pyIntBytes ((resp.drop 1).take 7) = .ok v) :
    VectronixRangeFinder.parse_range resp = .error .checksumMismatch ∧
    ∃ st mf, DistanceMeasurement.parse_response resp =
      .ok ⟨st, mf, false⟩ := by
  have hcrc1 : VectronixRangeFinder.check_crc resp =
      .error .checksumMismatch := by
    unfold VectronixRangeFinder.check_crc
    rw [hdec]
    simp [hne]
  have hcrc2 : DistanceMeasurement.check_crc resp = .ok false := by
    unfold DistanceMeasurement.check_crc
    rw [hdec]
    simp only [Except.ok.injEq]
    exact decide_eq_false (fun hh => hne hh.symm)
  refine ⟨?_, ?_⟩
  · unfold VectronixRangeFinder.parse_range
    rw [hcrc1]
  · unfold DistanceMeasurement.parse_response
    rw [if_pos (⟨hlen, hlast⟩ :
      resp.length = 11 ∧ resp.getLast? = some 0x0D)]
    by_cases hst : resp.take 1 = [0x76]
    · obtain ⟨v, hv2⟩ := hv hst
      have hv3 : pyIntBytes (List.take 7 resp.tail) = Except.ok v := by
        simpa [List.drop_one] using hv2
      refine ⟨.valid,
        DistanceMeasurement.pyOr (some ((v : ℚ) / 100)) Option.none, ?_⟩
      simp [hst, hv2, hv3, hcrc2]
    · by_cases hst2 : resp.take 1 = [0x52]
      · refine ⟨.error,
          DistanceMeasurement.pyOr Option.none
            (some ((resp.drop 4).take 4)), ?_⟩
        simp [hst, hst2, hcrc2]
      · refine ⟨.unknown,
          DistanceMeasurement.pyOr Option.none
            (some ((resp.drop 4).take 4)), ?_⟩
        simp [hst, hst2, hcrc2]

/-- C4 witness: the amended statement instantiated on the tampered
frame with checksum bytes 'D' 'A'. -/
theorem c4_checksum_mismatch_paths_witness :
    VectronixRangeFinder.parse_range
        [0x76, 0x30, 0x31, 0x30, 0x38, 0x37, 0x35, 0x30, 0x44, 0x41,
          0x0D] =
      .error .checksumMismatch ∧
    ∃ st mf, DistanceMeasurement.parse_response
        [0x76, 0x30, 0x31, 0x30, 0x38, 0x37, 0x35, 0x30, 0x44, 0x41,
          0x0D] =
      .ok ⟨st, mf, false⟩ :=
  c4_checksum_mismatch_paths
    [0x76, 0x30, 0x31, 0x30, 0x38, 0x37, 0x35, 0x30, 0x44, 0x41, 0x0D]
    [0x44, 0x41] (by decide) (by decide) (by decide) (by decide)
    (fun _ => ⟨108750, by decide⟩)

/-- C7 (amended): on a correctly shaped Valid frame passing the
checksum, `parse_range` is exactly the image of Python `int()` applied
to the decoded digit field: it fails if and only if `int()` rejects the
text (so fields with a sign, surrounding whitespace or underscore
grouping are parsed, not rejected), and when the seven bytes are all
ASCII decimal digits the range is their unsigned decimal value divided
by 100. -/
theorem c7_valid_field_int_semantics (resp : List Nat)
    (hlen : resp.length = 11) (_hlast : resp.getLast? = some 0x0D)
    (hst : resp.take 1 = [0x76])
    (hcrc : VectronixRangeFinder.check_crc resp = .ok ()) :
    VectronixRangeFinder.parse_range resp =
      (pyIntBytes ((resp.drop 1).take 7)).map
        (fun v => ⟨some ((v : ℚ) / 100), .valid, none⟩) ∧
    ((((resp.drop 1).take 7).all isAsciiDigit = true) →
      VectronixRangeFinder.parse_range resp =
        .ok ⟨some ((digitValue ((resp.drop 1).take 7) : ℚ) / 100),
          .valid, none⟩) := by
  have hmap : VectronixRangeFinder.parse_range resp =
      (pyIntBytes ((resp.drop 1).take 7)).map
        (fun v => ⟨some ((v : ℚ) / 100), .valid, none⟩) := by
    unfold VectronixRangeFinder.parse_range
    simp only [hcrc, hst]
    cases hpb : pyIntBytes ((resp.drop 1).take 7) with
    | error e => simp [hpb, Except.map]
    | ok v => simp [hpb, Except.map]
  refine ⟨hmap, fun hall => ?_⟩
  have hmem : ∀ b ∈ (resp.drop 1).take 7, isAsciiDigit b = true := by
    simpa [List.all_eq_true] using hall
  have h7 : ((resp.drop 1).take 7).length = 7 := by
    simp [List.length_take, List.length_drop, hlen]
  have hne2 : (resp.drop 1).take 7 ≠ [] := by
    intro hnil
    rw [hnil] at h7
    simp at h7
  have hpy : pythonInt ((resp.drop 1).take 7) =
      some ((digitValue ((resp.drop 1).take 7) : Nat) : Int) :=
    pythonInt_digits hne2 hmem
  have hall80 : ((resp.drop 1).take 7).all (fun b => b < 0x80) = true := by
    rw [List.all_eq_true]
    intro b hb
    have hb2 := hmem b hb
    simp only [isAsciiDigit, Bool.and_eq_true, decide_eq_true_eq] at hb2
    simp only [decide_eq_true_eq]
    omega
  have hpb : pyIntBytes ((resp.drop 1).take 7) =
      .ok ((digitValue ((resp.drop 1).take 7) : Nat) : Int) := by
    unfold pyIntBytes
    rw [if_pos hall80, hpy]
  rw [hmap, hpb]
  simp [Except.map]

/-- C7 witness: the amended statement instantiated on the all-digit
Valid frame 'v' '0' '1' '0' '8' '7' '5' '0' 'D' 'B' CR. -/
theorem c7_valid_field_int_semantics_witness :
    VectronixRangeFinder.parse_range
        [0x76, 0x30, 0x31, 0x30, 0x38, 0x37, 0x35, 0x30, 0x44, 0x42,
          0x0D] =
      (pyIntBytes
          (([0x76, 0x30, 0x31, 0x30, 0x38, 0x37, 0x35, 0x30, 0x44, 0x42,
            0x0D].drop 1).take 7)).map
        (fun v => ⟨some ((v : ℚ) / 100), .valid, none⟩) ∧
    (((([0x76, 0x30, 0x31, 0x30, 0x38, 0x37, 0x35, 0x30, 0x44, 0x42,
          0x0D].drop 1).take 7).all isAsciiDigit = true) →
      VectronixRangeFinder.parse_range
          [0x76, 0x30, 0x31, 0x30, 0x38, 0x37, 0x35, 0x30, 0x44, 0x42,
            0x0D] =
        .ok ⟨some ((digitValue
            (([0x76, 0x30, 0x31, 0x30, 0x38, 0x37, 0x35, 0x30, 0x44,
              0x42, 0x0D].drop 1).take 7) : ℚ) / 100),
          .valid, none⟩) :=
  c7_valid_field_int_semantics
    [0x76, 0x30, 0x31, 0x30, 0x38, 0x37, 0x35, 0x30, 0x44, 0x42, 0x0D]
    (by decide) (by decide) (by decide) (by decide)

end VectronixLRF
